import Mathlib

/-!
Verification of the bill-event envelope, codec, publisher and consumer of
the `hb-openapi-schema-code-generator` repository, shallowly embedded from
`src/generated/python/Bills/models/line_item.py`,
`src/generated/python/Bills/models/bill_event.py`,
`src/generated/python/Bills/events/bill_event_publisher.py` and
`src/generated/python/Bills/events/bill_event_consumer.py`.

Python/JSON values are modelled by the inductive `PyVal`; a Python `dict`
is an association list with first-match lookup.  JSON text is modelled by
the parsed JSON tree (serialisation then parsing of a date-free tree is
the identity, so properties about the text transfer to the tree).
`date`/`datetime` objects are modelled as a leaf carrying the string their
`isoformat()` method returns.
-/

/-- A Python value as it appears in (de)serialised event payloads.
`none` models Python `None` (= JSON null); `date s` models a
`datetime.date`/`datetime.datetime` object whose `isoformat()` is `s`. -/
inductive PyVal : Type where
  | str : String → PyVal
  | int : Int → PyVal
  | bool : Bool → PyVal
  | none : PyVal
  | date : String → PyVal
  | list : List PyVal → PyVal
  | dict : List (String × PyVal) → PyVal

/-- A Python dictionary with string keys: association list, first match wins. -/
abbrev PyDict := List (String × PyVal)

/-- Python `d.get(k)`: returns Python `None` (modelled `PyVal.none`) when the
key is missing, so a missing key and an explicit null are indistinguishable,
exactly as in the source's `obj.get(...)` calls. -/
def dget : PyDict → String → PyVal
  | [], _ => PyVal.none
  | (k', v) :: rest, k => if k' = k then v else dget rest k

/-- Key lookup distinguishing a missing key (`Option.none`) from a stored
value; models `k in d` / `d[k]` with `KeyError` on absence. -/
def dlookup : PyDict → String → Option PyVal
  | [], _ => Option.none
  | (k', v) :: rest, k => if k' = k then some v else dlookup rest k

/-- Python `d[k] = v`: overwrite in place when the key exists, else append. -/
def dictInsert : PyDict → String → PyVal → PyDict
  | [], k, v => [(k, v)]
  | (k', v') :: rest, k, v =>
      if k' = k then (k, v) :: rest else (k', v') :: dictInsert rest k v

mutual

/-- `true` when no `date`/`datetime` leaf occurs anywhere in the value. -/
def dateFree : PyVal → Bool
  | PyVal.date _ => false
  | PyVal.list xs => dateFreeList xs
  | PyVal.dict kvs => dateFreeDict kvs
  | _ => true

def dateFreeList : List PyVal → Bool
  | [] => true
  | x :: xs => dateFree x && dateFreeList xs

def dateFreeDict : List (String × PyVal) → Bool
  | [] => true
  | kv :: kvs => dateFree kv.2 && dateFreeDict kvs

end

/-- Error message `json.dumps` raises on a date/datetime object. -/
def dateErr : String := "TypeError: Object of type datetime is not JSON serializable"

mutual

/-- Plain `json.dumps` (no `cls=`): models the JSON text production used by
`LineItem.to_json`/`BillEvent.to_json`.  The default encoder has no date
type, so the first `date` leaf encountered raises `TypeError`. -/
def jsonDumpsPlain : PyVal → Except String PyVal
  | PyVal.str s => Except.ok (PyVal.str s)
  | PyVal.int n => Except.ok (PyVal.int n)
  | PyVal.bool b => Except.ok (PyVal.bool b)
  | PyVal.none => Except.ok PyVal.none
  | PyVal.date _ => Except.error dateErr
  | PyVal.list xs => (jsonDumpsPlainList xs).map PyVal.list
  | PyVal.dict kvs => (jsonDumpsPlainDict kvs).map PyVal.dict

def jsonDumpsPlainList : List PyVal → Except String (List PyVal)
  | [] => Except.ok []
  | x :: xs =>
      match jsonDumpsPlain x, jsonDumpsPlainList xs with
      | Except.ok v, Except.ok vs => Except.ok (v :: vs)
      | Except.error e, _ => Except.error e
      | _, Except.error e => Except.error e

def jsonDumpsPlainDict : List (String × PyVal) → Except String (List (String × PyVal))
  | [] => Except.ok []
  | kv :: kvs =>
      match jsonDumpsPlain kv.2, jsonDumpsPlainDict kvs with
      | Except.ok v, Except.ok vs => Except.ok ((kv.1, v) :: vs)
      | Except.error e, _ => Except.error e
      | _, Except.error e => Except.error e

end

mutual

/-- `json.dumps(obj, cls=DateTimeEncoder)` from
`bill_event_publisher.py`: identical to the default encoder except that
every `date`/`datetime` leaf is replaced by its `isoformat()` string. -/
def jsonDumpsDateTime : PyVal → PyVal
  | PyVal.str s => PyVal.str s
  | PyVal.int n => PyVal.int n
  | PyVal.bool b => PyVal.bool b
  | PyVal.none => PyVal.none
  | PyVal.date s => PyVal.str s
  | PyVal.list xs => PyVal.list (jsonDumpsDateTimeList xs)
  | PyVal.dict kvs => PyVal.dict (jsonDumpsDateTimeDict kvs)

def jsonDumpsDateTimeList : List PyVal → List PyVal
  | [] => []
  | x :: xs => jsonDumpsDateTime x :: jsonDumpsDateTimeList xs

def jsonDumpsDateTimeDict : List (String × PyVal) → List (String × PyVal)
  | [] => []
  | kv :: kvs => (kv.1, jsonDumpsDateTime kv.2) :: jsonDumpsDateTimeDict kvs

end

/-- The `LineItem` pydantic model of `models/line_item.py`.
`cost_division_set` records whether `"cost_division"` is a member of
pydantic's `model_fields_set` (the only field whose set-ness the code
consults, in `to_dict`); all other `model_fields_set` members are never
read. -/
structure LineItem : Type where
  line_id : String
  amount_in_cents : Int
  paid_in_cents : Option Int
  cost_code_id : String
  cost_code_number : String
  cost_classification : String
  cost_division : Option String
  cost_division_set : Bool
  cost_code_version : Option Int
  source_id : Option String
  description : Option String
deriving DecidableEq

/-- Optional string field as emitted by `model_dump` (no `exclude_none`). -/
def optStrVal : Option String → PyVal
  | Option.none => PyVal.none
  | some s => PyVal.str s

/-- Optional integer field as emitted by `model_dump` (no `exclude_none`). -/
def optIntVal : Option Int → PyVal
  | Option.none => PyVal.none
  | some n => PyVal.int n

/-- `self.model_dump(by_alias=True)` on a `LineItem`: every field appears
under its camelCase alias, optional fields that are `None` appear with an
explicit null.  This is the serialisation the publisher uses. -/
def LineItem.model_dump (li : LineItem) : PyDict :=
  [("lineId", PyVal.str li.line_id),
   ("amountInCents", PyVal.int li.amount_in_cents),
   ("paidInCents", optIntVal li.paid_in_cents),
   ("costCodeId", PyVal.str li.cost_code_id),
   ("costCodeNumber", PyVal.str li.cost_code_number),
   ("costClassification", PyVal.str li.cost_classification),
   ("costDivision", optStrVal li.cost_division),
   ("costCodeVersion", optIntVal li.cost_code_version),
   ("sourceId", optStrVal li.source_id),
   ("description", optStrVal li.description)]

/-- `LineItem.to_dict`: `model_dump(by_alias=True, exclude_none=True)`
(fields in declaration order, `None`-valued ones dropped), then
`_dict['costDivision'] = None` when `cost_division` is `None` and
`"cost_division"` is in `model_fields_set` (appending the key, since
`exclude_none` removed it). -/
def LineItem.to_dict (li : LineItem) : PyDict :=
  let base : PyDict :=
    [("lineId", PyVal.str li.line_id),
     ("amountInCents", PyVal.int li.amount_in_cents)]
    ++ (match li.paid_in_cents with
        | some v => [("paidInCents", PyVal.int v)]
        | Option.none => [])
    ++ [("costCodeId", PyVal.str li.cost_code_id),
        ("costCodeNumber", PyVal.str li.cost_code_number),
        ("costClassification", PyVal.str li.cost_classification)]
    ++ (match li.cost_division with
        | some v => [("costDivision", PyVal.str v)]
        | Option.none => [])
    ++ (match li.cost_code_version with
        | some v => [("costCodeVersion", PyVal.int v)]
        | Option.none => [])
    ++ (match li.source_id with
        | some v => [("sourceId", PyVal.str v)]
        | Option.none => [])
    ++ (match li.description with
        | some v => [("description", PyVal.str v)]
        | Option.none => [])
  if li.cost_division.isNone && li.cost_division_set then
    dictInsert base "costDivision" PyVal.none
  else base

/-- Validation of a required `StrictStr` field: only a string is accepted
(`None`, including a missing key, is rejected). -/
def vStrReq : PyVal → Option String
  | PyVal.str s => some s
  | _ => Option.none

/-- Validation of a required `StrictInt` field (bools are not ints under
pydantic strict types). -/
def vIntReq : PyVal → Option Int
  | PyVal.int n => some n
  | _ => Option.none

/-- Validation of an `Optional[StrictStr]` field. -/
def vStrOpt : PyVal → Option (Option String)
  | PyVal.none => some Option.none
  | PyVal.str s => some (some s)
  | _ => Option.none

/-- Validation of an `Optional[StrictInt]` field. -/
def vIntOpt : PyVal → Option (Option Int)
  | PyVal.none => some Option.none
  | PyVal.int n => some (some n)
  | _ => Option.none

/-- `cls.model_validate({...})` as invoked by `LineItem.from_dict`: the
intermediate dict holds all ten alias keys (`obj.get` supplies `None` for
absent ones), so every field — `cost_division` in particular — ends up in
`model_fields_set`.  A pydantic `ValidationError` is modelled as the list
of offending field names (pydantic reports all of them). -/
def LineItem.modelValidate (d : PyDict) : Except (List String) LineItem :=
  let vLineId := vStrReq (dget d "lineId")
  let vAmount := vIntReq (dget d "amountInCents")
  let vPaid := vIntOpt (dget d "paidInCents")
  let vCodeId := vStrReq (dget d "costCodeId")
  let vCodeNum := vStrReq (dget d "costCodeNumber")
  let vClass := vStrReq (dget d "costClassification")
  let vDivision := vStrOpt (dget d "costDivision")
  let vCodeVer := vIntOpt (dget d "costCodeVersion")
  let vSource := vStrOpt (dget d "sourceId")
  let vDescr := vStrOpt (dget d "description")
  match vLineId, vAmount, vPaid, vCodeId, vCodeNum, vClass, vDivision, vCodeVer, vSource, vDescr with
  | some a, some b, some c, some e, some f, some g, some h, some i, some j, some k =>
      Except.ok ⟨a, b, c, e, f, g, h, true, i, j, k⟩
  | _, _, _, _, _, _, _, _, _, _ =>
      Except.error
        ((if vLineId.isNone then ["lineId"] else [])
          ++ (if vAmount.isNone then ["amountInCents"] else [])
          ++ (if vPaid.isNone then ["paidInCents"] else [])
          ++ (if vCodeId.isNone then ["costCodeId"] else [])
          ++ (if vCodeNum.isNone then ["costCodeNumber"] else [])
          ++ (if vClass.isNone then ["costClassification"] else [])
          ++ (if vDivision.isNone then ["costDivision"] else [])
          ++ (if vCodeVer.isNone then ["costCodeVersion"] else [])
          ++ (if vSource.isNone then ["sourceId"] else [])
          ++ (if vDescr.isNone then ["description"] else []))

/-- `LineItem.from_dict(obj)`: `None` maps to `None`; a dict is validated
through the ten-alias-key intermediate dict; any other value goes to
`cls.model_validate(obj)`, which fails on a non-model value. -/
def LineItem.from_dict : PyVal → Except (List String) (Option LineItem)
  | PyVal.none => Except.ok Option.none
  | PyVal.dict d => (LineItem.modelValidate d).map some
  | _ => Except.error ["LineItem"]

/-- `LineItem.to_json`: `json.dumps(self.to_dict())` with the default
encoder (`models/line_item.py`, line 52-55). -/
def LineItem.to_json (li : LineItem) : Except String PyVal :=
  jsonDumpsPlain (PyVal.dict li.to_dict)

/-- The line item produced by decoding: identical field values, but
`cost_division` is unconditionally in `model_fields_set`. -/
def LineItem.decodeNorm (li : LineItem) : LineItem :=
  { li with cost_division_set := true }

/-- Pydantic `==` on `LineItem`: compares the field values (`__dict__`)
only, never `model_fields_set`. -/
def LineItem.pyEq (a b : LineItem) : Prop :=
  a.line_id = b.line_id ∧ a.amount_in_cents = b.amount_in_cents ∧
  a.paid_in_cents = b.paid_in_cents ∧ a.cost_code_id = b.cost_code_id ∧
  a.cost_code_number = b.cost_code_number ∧
  a.cost_classification = b.cost_classification ∧
  a.cost_division = b.cost_division ∧
  a.cost_code_version = b.cost_code_version ∧
  a.source_id = b.source_id ∧ a.description = b.description

set_option maxHeartbeats 1600000 in
theorem lineItem_from_to_dict (li : LineItem) :
    LineItem.from_dict (PyVal.dict li.to_dict) = Except.ok (some li.decodeNorm) := by
  rcases li with ⟨l, a, pic, ci, cn, cc, cd, cds, cv, si, de⟩
  rcases pic with _ | pic <;> rcases cd with _ | cd <;> cases cds <;>
    rcases cv with _ | cv <;> rcases si with _ | si <;> rcases de with _ | de <;>
    simp [LineItem.from_dict, LineItem.to_dict, LineItem.modelValidate, LineItem.decodeNorm,
      dget, dictInsert, vStrReq, vIntReq, vStrOpt, vIntOpt, Except.map]

set_option maxHeartbeats 1600000 in
theorem lineItem_from_model_dump (li : LineItem) :
    LineItem.from_dict (PyVal.dict li.model_dump) = Except.ok (some li.decodeNorm) := by
  rcases li with ⟨l, a, pic, ci, cn, cc, cd, cds, cv, si, de⟩
  rcases pic with _ | pic <;> rcases cd with _ | cd <;> cases cds <;>
    rcases cv with _ | cv <;> rcases si with _ | si <;> rcases de with _ | de <;>
    simp [LineItem.from_dict, LineItem.model_dump, LineItem.modelValidate, LineItem.decodeNorm,
      dget, optStrVal, optIntVal, vStrReq, vIntReq, vStrOpt, vIntOpt, Except.map]

/-- Modelled from the spec: `src/generated/python/Bills/models/bill.py` is
not among the provided sources; spec §3 treats `Bill` as a
"domain-specific field bag ... treated as an opaque structured record by
the core", with its own encode/decode contract.  It is modelled as an
opaque record of wire fields whose `to_dict`/`model_dump` is that field
bag and whose `from_dict` accepts any dict. -/
structure Bill : Type where
  fields : PyDict

def Bill.to_dict (b : Bill) : PyDict := b.fields

def Bill.model_dump (b : Bill) : PyDict := b.fields

def Bill.from_dict : PyVal → Except (List String) (Option Bill)
  | PyVal.none => Except.ok Option.none
  | PyVal.dict d => Except.ok (some ⟨d⟩)
  | _ => Except.error ["bill"]

/-- Modelled from the spec: `models/project.py` is not among the provided
sources; spec §3 treats `Project` as an opaque domain-specific field bag
(see `Bill`). -/
structure Project : Type where
  fields : PyDict

def Project.to_dict (p : Project) : PyDict := p.fields

def Project.model_dump (p : Project) : PyDict := p.fields

def Project.from_dict : PyVal → Except (List String) (Option Project)
  | PyVal.none => Except.ok Option.none
  | PyVal.dict d => Except.ok (some ⟨d⟩)
  | _ => Except.error ["project"]

/-- Modelled from the spec: `models/approval.py` is not among the provided
sources; spec §3 treats `Approval` as an opaque domain-specific field bag
(see `Bill`). -/
structure Approval : Type where
  fields : PyDict

def Approval.to_dict (a : Approval) : PyDict := a.fields

def Approval.model_dump (a : Approval) : PyDict := a.fields

def Approval.from_dict : PyVal → Except (List String) (Option Approval)
  | PyVal.none => Except.ok Option.none
  | PyVal.dict d => Except.ok (some ⟨d⟩)
  | _ => Except.error ["approval"]

/-- Modelled from the spec: `models/metadata.py` is not among the provided
sources; spec §3 treats `Metadata` as an opaque domain-specific field bag
(see `Bill`).  Its fields may hold any wire value, date/datetime leaves
included (spec §4.1: "date/time-valued fields (if present in
collaborator-defined shapes)"). -/
structure Metadata : Type where
  fields : PyDict

def Metadata.to_dict (m : Metadata) : PyDict := m.fields

def Metadata.model_dump (m : Metadata) : PyDict := m.fields

def Metadata.from_dict : PyVal → Except (List String) (Option Metadata)
  | PyVal.none => Except.ok Option.none
  | PyVal.dict d => Except.ok (some ⟨d⟩)
  | _ => Except.error ["eventMetadata"]

/-- The `BillEvent` pydantic model of `models/bill_event.py`: five required
sub-objects, `line_items` aliased `lineItems`, `event_metadata` aliased
`eventMetadata`. -/
structure BillEvent : Type where
  bill : Bill
  project : Project
  line_items : List LineItem
  approval : Approval
  event_metadata : Metadata

/-- `BillEvent.to_dict`: `model_dump(by_alias=True, exclude_none=True)`
then each required sub-object's entry overridden by its own `to_dict`.
The `if self.line_items:` guard skips the override for an empty list, but
the `model_dump` baseline already emitted `"lineItems": []`, so the key is
present either way. -/
def BillEvent.to_dict (e : BillEvent) : PyDict :=
  [("bill", PyVal.dict e.bill.to_dict),
   ("project", PyVal.dict e.project.to_dict),
   ("lineItems", PyVal.list (e.line_items.map (fun li => PyVal.dict li.to_dict))),
   ("approval", PyVal.dict e.approval.to_dict),
   ("eventMetadata", PyVal.dict e.event_metadata.to_dict)]

/-- `self.model_dump(by_alias=True)` on a `BillEvent` (the serialisation the
publisher uses): pydantic dumps the nested models recursively, keeping
explicit nulls for unset optional fields. -/
def BillEvent.model_dump (e : BillEvent) : PyDict :=
  [("bill", PyVal.dict e.bill.model_dump),
   ("project", PyVal.dict e.project.model_dump),
   ("lineItems", PyVal.list (e.line_items.map (fun li => PyVal.dict li.model_dump))),
   ("approval", PyVal.dict e.approval.model_dump),
   ("eventMetadata", PyVal.dict e.event_metadata.model_dump)]

/-- The list comprehension `[LineItem.from_dict(_item) for _item in
obj["lineItems"]]`: evaluated left to right, the first raising item
propagates its error. -/
def lineItemsFromList : List PyVal → Except (List String) (List (Option LineItem))
  | [] => Except.ok []
  | x :: xs =>
      match LineItem.from_dict x, lineItemsFromList xs with
      | Except.ok o, Except.ok os => Except.ok (o :: os)
      | Except.error e, _ => Except.error e
      | _, Except.error e => Except.error e

/-- Pydantic validation of `List[LineItem]`: every element must be an
actual `LineItem`, a `None` element is a validation error. -/
def allSomeItems : List (Option LineItem) → Option (List LineItem)
  | [] => some []
  | some x :: xs => (allSomeItems xs).map (fun l => x :: l)
  | Option.none :: _ => Option.none

/-- `cls.model_validate({...})` as invoked by `BillEvent.from_dict`: all
five fields are required; a missing (`None`) field, or a `None` element in
`lineItems`, is a `ValidationError` naming the field.  Pydantic collects
every offending field name. -/
def BillEvent.modelValidate (billOpt : Option Bill) (projectOpt : Option Project)
    (itemsOpt : Option (List (Option LineItem))) (approvalOpt : Option Approval)
    (metaOpt : Option Metadata) : Except (List String) BillEvent :=
  let itemsOk : Option (List LineItem) := itemsOpt.bind allSomeItems
  match billOpt, projectOpt, itemsOk, approvalOpt, metaOpt with
  | some b, some p, some ls, some a, some m => Except.ok ⟨b, p, ls, a, m⟩
  | _, _, _, _, _ =>
      Except.error
        ((if billOpt.isNone then ["bill"] else [])
          ++ (if projectOpt.isNone then ["project"] else [])
          ++ (if itemsOk.isNone then ["lineItems"] else [])
          ++ (if approvalOpt.isNone then ["approval"] else [])
          ++ (if metaOpt.isNone then ["eventMetadata"] else []))

/-- The dict-literal entry `"bill": Bill.from_dict(obj["bill"]) if
obj.get("bill") is not None else None` of `BillEvent.from_dict`. -/
def billField (d : PyDict) : Except (List String) (Option Bill) :=
  match dget d "bill" with
  | PyVal.none => Except.ok Option.none
  | v => Bill.from_dict v

/-- The dict-literal entry `"project": Project.from_dict(obj["project"])
if obj.get("project") is not None else None`. -/
def projectField (d : PyDict) : Except (List String) (Option Project) :=
  match dget d "project" with
  | PyVal.none => Except.ok Option.none
  | v => Project.from_dict v

/-- The dict-literal entry `"lineItems": [LineItem.from_dict(_item) for
_item in obj["lineItems"]] if obj.get("lineItems") is not None else None`;
iterating a non-list raises. -/
def lineItemsField (d : PyDict) : Except (List String) (Option (List (Option LineItem))) :=
  match dget d "lineItems" with
  | PyVal.none => Except.ok Option.none
  | PyVal.list items => (lineItemsFromList items).map some
  | _ => Except.error ["lineItems"]

/-- The dict-literal entry `"approval": Approval.from_dict(obj["approval"])
if obj.get("approval") is not None else None`. -/
def approvalField (d : PyDict) : Except (List String) (Option Approval) :=
  match dget d "approval" with
  | PyVal.none => Except.ok Option.none
  | v => Approval.from_dict v

/-- The dict-literal entry `"eventMetadata":
Metadata.from_dict(obj["eventMetadata"]) if obj.get("eventMetadata") is
not None else None`. -/
def metadataField (d : PyDict) : Except (List String) (Option Metadata) :=
  match dget d "eventMetadata" with
  | PyVal.none => Except.ok Option.none
  | v => Metadata.from_dict v

/-- `BillEvent.from_dict(obj)`: `None` maps to `None`; for a dict, the five
dict-literal entries are evaluated in order (the first raising decoder
aborts the call) and the results go through `model_validate`.  A non-dict
argument goes to `cls.model_validate(obj)`, which fails on a non-model
value. -/
def BillEvent.from_dict : PyVal → Except (List String) (Option BillEvent)
  | PyVal.none => Except.ok Option.none
  | PyVal.dict d =>
      match billField d with
      | Except.error e => Except.error e
      | Except.ok billOpt =>
        match projectField d with
        | Except.error e => Except.error e
        | Except.ok projectOpt =>
          match lineItemsField d with
          | Except.error e => Except.error e
          | Except.ok itemsOpt =>
            match approvalField d with
            | Except.error e => Except.error e
            | Except.ok approvalOpt =>
              match metadataField d with
              | Except.error e => Except.error e
              | Except.ok metaOpt =>
                  (BillEvent.modelValidate billOpt projectOpt itemsOpt
                    approvalOpt metaOpt).map some
  | _ => Except.error ["BillEvent"]

/-- `BillEvent.to_json`: `json.dumps(self.to_dict())` with the default
encoder (`models/bill_event.py`, line 52-55). -/
def BillEvent.to_json (e : BillEvent) : Except String PyVal :=
  jsonDumpsPlain (PyVal.dict e.to_dict)

/-- The event produced by decoding an encoded event: identical field
values, but every line item has `cost_division` in `model_fields_set`. -/
def BillEvent.decodeNorm (e : BillEvent) : BillEvent :=
  { e with line_items := e.line_items.map LineItem.decodeNorm }

/-- Pydantic `==` on `BillEvent`: field-value comparison, delegating to
pydantic `==` on the sub-models (which ignores `model_fields_set`). -/
def BillEvent.pyEq (a b : BillEvent) : Prop :=
  a.bill = b.bill ∧ a.project = b.project ∧
  List.Forall₂ LineItem.pyEq a.line_items b.line_items ∧
  a.approval = b.approval ∧ a.event_metadata = b.event_metadata

theorem lineItemsFromList_to_dict (ls : List LineItem) :
    lineItemsFromList (ls.map (fun li => PyVal.dict li.to_dict))
      = Except.ok (ls.map (fun li => some li.decodeNorm)) := by
  induction ls with
  | nil => rfl
  | cons x xs ih => simp [lineItemsFromList, lineItem_from_to_dict x, ih]

theorem lineItemsFromList_model_dump (ls : List LineItem) :
    lineItemsFromList (ls.map (fun li => PyVal.dict li.model_dump))
      = Except.ok (ls.map (fun li => some li.decodeNorm)) := by
  induction ls with
  | nil => rfl
  | cons x xs ih => simp [lineItemsFromList, lineItem_from_model_dump x, ih]

theorem allSomeItems_map_some (f : LineItem → LineItem) (ls : List LineItem) :
    allSomeItems (ls.map (fun li => some (f li))) = some (ls.map f) := by
  induction ls with
  | nil => rfl
  | cons x xs ih => simp [allSomeItems, ih]

theorem billEvent_from_to_dict (e : BillEvent) :
    BillEvent.from_dict (PyVal.dict e.to_dict) = Except.ok (some e.decodeNorm) := by
  rcases e with ⟨⟨bf⟩, ⟨pf⟩, ls, ⟨af⟩, ⟨mf⟩⟩
  simp [BillEvent.from_dict, BillEvent.to_dict, BillEvent.decodeNorm, dget,
    billField, projectField, lineItemsField, approvalField, metadataField,
    Bill.to_dict, Project.to_dict, Approval.to_dict, Metadata.to_dict,
    Bill.from_dict, Project.from_dict, Approval.from_dict, Metadata.from_dict,
    lineItemsFromList_to_dict, BillEvent.modelValidate,
    allSomeItems_map_some, Except.map, List.map_map]

theorem billEvent_from_model_dump (e : BillEvent) :
    BillEvent.from_dict (PyVal.dict e.model_dump) = Except.ok (some e.decodeNorm) := by
  rcases e with ⟨⟨bf⟩, ⟨pf⟩, ls, ⟨af⟩, ⟨mf⟩⟩
  simp [BillEvent.from_dict, BillEvent.model_dump, BillEvent.decodeNorm, dget,
    billField, projectField, lineItemsField, approvalField, metadataField,
    Bill.model_dump, Project.model_dump, Approval.model_dump, Metadata.model_dump,
    Bill.from_dict, Project.from_dict, Approval.from_dict, Metadata.from_dict,
    lineItemsFromList_model_dump, BillEvent.modelValidate,
    allSomeItems_map_some, Except.map, List.map_map]

theorem lineItem_pyEq_decodeNorm (li : LineItem) : LineItem.pyEq li.decodeNorm li := by
  exact ⟨rfl, rfl, rfl, rfl, rfl, rfl, rfl, rfl, rfl, rfl⟩

theorem billEvent_pyEq_decodeNorm (e : BillEvent) : BillEvent.pyEq e.decodeNorm e := by
  refine ⟨rfl, rfl, ?_, rfl, rfl⟩
  simp only [BillEvent.decodeNorm]
  induction e.line_items with
  | nil => exact List.Forall₂.nil
  | cons x xs ih => exact List.Forall₂.cons (lineItem_pyEq_decodeNorm x) ih

mutual

theorem jsonDumpsDateTime_dateFree : ∀ v, dateFree (jsonDumpsDateTime v) = true
  | PyVal.str _ => rfl
  | PyVal.int _ => rfl
  | PyVal.bool _ => rfl
  | PyVal.none => rfl
  | PyVal.date _ => rfl
  | PyVal.list xs => by
      simp [jsonDumpsDateTime, dateFree, jsonDumpsDateTimeList_dateFree xs]
  | PyVal.dict kvs => by
      simp [jsonDumpsDateTime, dateFree, jsonDumpsDateTimeDict_dateFree kvs]

theorem jsonDumpsDateTimeList_dateFree : ∀ xs, dateFreeList (jsonDumpsDateTimeList xs) = true
  | [] => rfl
  | x :: xs => by
      simp [jsonDumpsDateTimeList, dateFreeList, jsonDumpsDateTime_dateFree x,
        jsonDumpsDateTimeList_dateFree xs]

theorem jsonDumpsDateTimeDict_dateFree : ∀ kvs, dateFreeDict (jsonDumpsDateTimeDict kvs) = true
  | [] => rfl
  | kv :: kvs => by
      simp [jsonDumpsDateTimeDict, dateFreeDict, jsonDumpsDateTime_dateFree kv.2,
        jsonDumpsDateTimeDict_dateFree kvs]

end

mutual

theorem jsonDumpsDateTime_id : ∀ v, dateFree v = true → jsonDumpsDateTime v = v
  | PyVal.str _, _ => rfl
  | PyVal.int _, _ => rfl
  | PyVal.bool _, _ => rfl
  | PyVal.none, _ => rfl
  | PyVal.date _, h => by simp [dateFree] at h
  | PyVal.list xs, h => by
      simp only [dateFree] at h
      simp [jsonDumpsDateTime, jsonDumpsDateTimeList_id xs h]
  | PyVal.dict kvs, h => by
      simp only [dateFree] at h
      simp [jsonDumpsDateTime, jsonDumpsDateTimeDict_id kvs h]

theorem jsonDumpsDateTimeList_id : ∀ xs, dateFreeList xs = true → jsonDumpsDateTimeList xs = xs
  | [], _ => rfl
  | x :: xs, h => by
      simp only [dateFreeList, Bool.and_eq_true] at h
      simp [jsonDumpsDateTimeList, jsonDumpsDateTime_id x h.1, jsonDumpsDateTimeList_id xs h.2]

theorem jsonDumpsDateTimeDict_id : ∀ kvs, dateFreeDict kvs = true → jsonDumpsDateTimeDict kvs = kvs
  | [], _ => rfl
  | kv :: kvs, h => by
      simp only [dateFreeDict, Bool.and_eq_true] at h
      simp [jsonDumpsDateTimeDict, jsonDumpsDateTime_id kv.2 h.1, jsonDumpsDateTimeDict_id kvs h.2]

end

mutual

theorem jsonDumpsPlain_ok : ∀ v, dateFree v = true → jsonDumpsPlain v = Except.ok v
  | PyVal.str _, _ => rfl
  | PyVal.int _, _ => rfl
  | PyVal.bool _, _ => rfl
  | PyVal.none, _ => rfl
  | PyVal.date _, h => by simp [dateFree] at h
  | PyVal.list xs, h => by
      simp only [dateFree] at h
      simp [jsonDumpsPlain, jsonDumpsPlainList_ok xs h, Except.map]
  | PyVal.dict kvs, h => by
      simp only [dateFree] at h
      simp [jsonDumpsPlain, jsonDumpsPlainDict_ok kvs h, Except.map]

theorem jsonDumpsPlainList_ok : ∀ xs, dateFreeList xs = true → jsonDumpsPlainList xs = Except.ok xs
  | [], _ => rfl
  | x :: xs, h => by
      simp only [dateFreeList, Bool.and_eq_true] at h
      simp [jsonDumpsPlainList, jsonDumpsPlain_ok x h.1, jsonDumpsPlainList_ok xs h.2]

theorem jsonDumpsPlainDict_ok : ∀ kvs, dateFreeDict kvs = true → jsonDumpsPlainDict kvs = Except.ok kvs
  | [], _ => rfl
  | kv :: kvs, h => by
      simp only [dateFreeDict, Bool.and_eq_true] at h
      simp [jsonDumpsPlainDict, jsonDumpsPlain_ok kv.2 h.1, jsonDumpsPlainDict_ok kvs h.2]

end

mutual

theorem jsonDumpsPlain_error : ∀ v, dateFree v = false → jsonDumpsPlain v = Except.error dateErr
  | PyVal.date _, _ => rfl
  | PyVal.list xs, h => by
      simp only [dateFree] at h
      simp [jsonDumpsPlain, jsonDumpsPlainList_error xs h, Except.map]
  | PyVal.dict kvs, h => by
      simp only [dateFree] at h
      simp [jsonDumpsPlain, jsonDumpsPlainDict_error kvs h, Except.map]

theorem jsonDumpsPlainList_error :
    ∀ xs, dateFreeList xs = false → jsonDumpsPlainList xs = Except.error dateErr
  | x :: xs, h => by
      simp only [dateFreeList, Bool.and_eq_false_iff] at h
      rcases h with h | h
      · simp [jsonDumpsPlainList, jsonDumpsPlain_error x h]
      · cases hx : dateFree x with
        | false => simp [jsonDumpsPlainList, jsonDumpsPlain_error x hx]
        | true =>
            simp [jsonDumpsPlainList, jsonDumpsPlain_ok x hx, jsonDumpsPlainList_error xs h]

theorem jsonDumpsPlainDict_error :
    ∀ kvs, dateFreeDict kvs = false → jsonDumpsPlainDict kvs = Except.error dateErr
  | kv :: kvs, h => by
      simp only [dateFreeDict, Bool.and_eq_false_iff] at h
      rcases h with h | h
      · simp [jsonDumpsPlainDict, jsonDumpsPlain_error kv.2 h]
      · cases hx : dateFree kv.2 with
        | false => simp [jsonDumpsPlainDict, jsonDumpsPlain_error kv.2 hx]
        | true =>
            simp [jsonDumpsPlainDict, jsonDumpsPlain_ok kv.2 hx, jsonDumpsPlainDict_error kvs h]

end

/-- One EventBridge `PutEvents` entry as built by
`BillEventPublisher.publish` (`bill_event_publisher.py`, lines 42-47);
`detail` is the JSON text of the `Detail` field, modelled as its parsed
tree. -/
structure PutEventsEntry : Type where
  source : String
  detailType : String
  detail : PyVal
  eventBusName : String

/-- The publisher's configuration, with the source's defaults
(`bill_event_publisher.py`, line 14).  `region` only configures the bus
client and takes no part in entry construction. -/
structure BillEventPublisher : Type where
  region : String := "us-west-2"
  event_bus_name : String := "homebound-events"
  source : String := "com.homebound"

/-- What one `publish` invocation did: the sequence of
`client.put_events(Entries=...)` calls it made, and the value it
returned. -/
structure PublishOutcome (α : Type) : Type where
  calls : List (List PutEventsEntry)
  response : α

/-- `BillEventPublisher.publish`: builds the single entry
`{Source: self.source, DetailType: 'BillEvent', Detail:
json.dumps(event.model_dump(by_alias=True), cls=DateTimeEncoder),
EventBusName: self.event_bus_name}`, calls `put_events` once with the
one-element entry list, and returns the client's response unchanged.  The
bus client is an external collaborator, passed as the function
`putEvents`. -/
def BillEventPublisher.publish {α : Type} (p : BillEventPublisher)
    (putEvents : List PutEventsEntry → α) (event : BillEvent) : PublishOutcome α :=
  let event_entry : PutEventsEntry :=
    { source := p.source
      detailType := "BillEvent"
      detail := jsonDumpsDateTime (PyVal.dict event.model_dump)
      eventBusName := p.event_bus_name }
  { calls := [[event_entry]], response := putEvents [event_entry] }

/-- A registered consumer callback: `id` identifies the callable, and
`raises ev = some msg` models the Python callable raising an exception
with message `msg` when invoked on `ev` (`Option.none` = returns
normally).  `handle_event` passes the raw result of
`BillEvent.from_dict`, which can be Python `None`, hence the
`Option BillEvent` argument. -/
structure Handler : Type where
  id : Nat
  raises : Option BillEvent → Option String

/-- The `BillEventConsumer` state: the registered handler list (appended
to by `on`, in order, without de-duplication) plus the configured bus
name. -/
structure BillEventConsumer : Type where
  event_bus_name : String := "homebound-events"
  handlers : List Handler := []

/-- `BillEventConsumer.on`: `self.handlers.append(handler)`. -/
def BillEventConsumer.on (c : BillEventConsumer) (h : Handler) : BillEventConsumer :=
  { c with handlers := c.handlers ++ [h] }

/-- The `for handler in self.handlers: handler(event)` loop: returns the
trace of invocations (handler id, argument) in order, and the message of
the first exception a handler raised (the loop stops there), if any. -/
def runHandlers : List Handler → Option BillEvent → List (Nat × Option BillEvent) × Option String
  | [], _ => ([], Option.none)
  | h :: rest, ev =>
      match h.raises ev with
      | some msg => ([(h.id, ev)], some msg)
      | Option.none =>
          let r := runHandlers rest ev
          ((h.id, ev) :: r.1, r.2)

/-- What one `handle_event` invocation did: the handler invocations it
performed in order, the error message printed by the `except` branch (if
taken), and the exception it re-raised to its caller — always
`Option.none`, because the source wraps the whole body, handler loop
included, in `try ... except Exception`. -/
structure HandleResult : Type where
  calls : List (Nat × Option BillEvent)
  logged : Option String
  raised : Option String

/-- `BillEventConsumer.handle_event(event_data)`: reads
`event_data['detail']` (a `KeyError` lands in the `except` branch),
decodes it via `BillEvent.from_dict` (a `ValidationError` lands in the
`except` branch), then calls every registered handler in order; a handler
exception also lands in the `except` branch, which prints and swallows
it.  Returns the unchanged consumer together with the invocation
trace. -/
def BillEventConsumer.handle_event (c : BillEventConsumer) (event_data : PyVal) :
    BillEventConsumer × HandleResult :=
  match event_data with
  | PyVal.dict d =>
      match dlookup d "detail" with
      | Option.none => (c, ⟨[], some "KeyError: detail", Option.none⟩)
      | some v =>
          match BillEvent.from_dict v with
          | Except.error errs =>
              (c, ⟨[], some (String.intercalate ", " errs), Option.none⟩)
          | Except.ok ev =>
              let r := runHandlers c.handlers ev
              (c, ⟨r.1, r.2, Option.none⟩)
  | _ => (c, ⟨[], some "TypeError", Option.none⟩)

theorem runHandlers_no_raise (hs : List Handler) (ev : Option BillEvent)
    (hok : ∀ h ∈ hs, h.raises ev = Option.none) :
    runHandlers hs ev = (hs.map (fun h => (h.id, ev)), Option.none) := by
  induction hs with
  | nil => rfl
  | cons x xs ih =>
      have hx : x.raises ev = Option.none := hok x (List.mem_cons_self x xs)
      have ihs := ih (fun h hm => hok h (List.mem_cons_of_mem x hm))
      simp [runHandlers, hx, ihs]

theorem runHandlers_first_raise (pre : List Handler) (h : Handler) (post : List Handler)
    (ev : Option BillEvent) (msg : String)
    (hpre : ∀ h' ∈ pre, h'.raises ev = Option.none)
    (hraise : h.raises ev = some msg) :
    runHandlers (pre ++ h :: post) ev =
      (pre.map (fun h' => (h'.id, ev)) ++ [(h.id, ev)], some msg) := by
  induction pre with
  | nil => simp [runHandlers, hraise]
  | cons x xs ih =>
      have hx : x.raises ev = Option.none := hpre x (List.mem_cons_self x xs)
      have ihs := ih (fun h' hm => hpre h' (List.mem_cons_of_mem x hm))
      simp [runHandlers, hx, ihs]

theorem handlers_foldl_on (c : BillEventConsumer) (hs : List Handler) :
    (hs.foldl BillEventConsumer.on c).handlers = c.handlers ++ hs := by
  induction hs generalizing c with
  | nil => simp
  | cons x xs ih => simp [List.foldl_cons, ih, BillEventConsumer.on]

theorem dget_append_ne (d : PyDict) (k k' : String) (v : PyVal) (hne : k' ≠ k) :
    dget (d ++ [(k, v)]) k' = dget d k' := by
  induction d with
  | nil => simp [dget, hne.symm]
  | cons kv rest ih => rcases kv with ⟨k0, v0⟩; simp [dget, ih]

/-- `True` when each of the five dict-literal entries of
`BillEvent.from_dict` evaluates without raising, i.e. the payload's
present sub-objects are themselves decodable; validation of the assembled
event can still fail. -/
def buildOk (d : PyDict) : Bool :=
  (billField d).isOk && (projectField d).isOk && (lineItemsField d).isOk &&
    (approvalField d).isOk && (metadataField d).isOk

/-- The five wire names of the required `BillEvent` fields. -/
def requiredKeys : List String :=
  ["bill", "project", "lineItems", "approval", "eventMetadata"]

/-- The field names a pydantic `ValidationError` reports (empty for a
success). -/
def errorsOf {α : Type} : Except (List String) α → List String
  | Except.error e => e
  | Except.ok _ => []

theorem except_isOk_exists {ε α : Type} (x : Except ε α) (h : x.isOk = true) :
    ∃ a, x = Except.ok a := by
  cases x with
  | error e => simp [Except.isOk, Except.toBool] at h
  | ok a => exact ⟨a, rfl⟩

/-- Fixture sub-objects used by the concrete witnesses below. -/
def wBill : Bill := ⟨[("billId", PyVal.str "b-1"), ("totalInCents", PyVal.int 1500)]⟩

def wProject : Project := ⟨[("projectId", PyVal.str "p-1")]⟩

def wApproval : Approval := ⟨[("approvedBy", PyVal.str "alice")]⟩

def wMetadata : Metadata := ⟨[("eventId", PyVal.str "evt-1")]⟩

/-- A line item with every optional field unset (in particular
`cost_division` never set). -/
def wLineItem : LineItem :=
  ⟨"L1", 1500, Option.none, "cc-1", "01-100", "labor",
    Option.none, false, Option.none, Option.none, Option.none⟩

/-- A line item whose `cost_division` was explicitly set to `None` at
construction. -/
def wLineItemNullDiv : LineItem :=
  ⟨"L2", 250, some 100, "cc-2", "01-200", "material",
    Option.none, true, some 3, Option.none, Option.none⟩

/-- A valid fixture event. -/
def wEvent : BillEvent := ⟨wBill, wProject, [wLineItem], wApproval, wMetadata⟩

/-- The dict of the first element under the `lineItems` key of an encoded
event (used to inspect encodings at concrete inputs). -/
def firstLineItemDict (v : PyVal) : PyDict :=
  match v with
  | PyVal.dict d =>
      match dget d "lineItems" with
      | PyVal.list (PyVal.dict li :: _) => li
      | _ => []
  | _ => []

/-- Claim C10: `BillEvent.from_dict` and `LineItem.from_dict`, given
Python `None` instead of a dict, return `None` rather than raising a
`ValidationError` or constructing an object — a null payload is silently
mapped to "no event" at the decode interface. -/
theorem c10_null_input_returns_none :
    BillEvent.from_dict PyVal.none = Except.ok Option.none ∧
    LineItem.from_dict PyVal.none = Except.ok Option.none :=
  ⟨rfl, rfl⟩

/-- Claim C2: `LineItem.to_dict` omits the `paidInCents` key when
`paid_in_cents` is unset, emits an explicit `"costDivision": null` when
`cost_division` was explicitly set to `None`, omits `costDivision` when it
was never set, and omits every other `None`-valued optional field
(`costCodeVersion`, `sourceId`, `description`). -/
theorem c2_omission_rule (li : LineItem) :
    (li.paid_in_cents = Option.none → dlookup li.to_dict "paidInCents" = Option.none) ∧
    (li.cost_division = Option.none → li.cost_division_set = true →
      dlookup li.to_dict "costDivision" = some PyVal.none) ∧
    (li.cost_division = Option.none → li.cost_division_set = false →
      dlookup li.to_dict "costDivision" = Option.none) ∧
    (li.cost_code_version = Option.none → dlookup li.to_dict "costCodeVersion" = Option.none) ∧
    (li.source_id = Option.none → dlookup li.to_dict "sourceId" = Option.none) ∧
    (li.description = Option.none → dlookup li.to_dict "description" = Option.none) := by
  rcases li with ⟨l, a, pic, ci, cn, cc, cd, cds, cv, si, de⟩
  rcases pic with _ | pic <;> rcases cd with _ | cd <;> cases cds <;>
    rcases cv with _ | cv <;> rcases si with _ | si <;> rcases de with _ | de <;>
    simp [LineItem.to_dict, dlookup, dictInsert]

/-- Witness for C2 at concrete line items: `wLineItem` has `paidInCents`
unset and `costDivision` never set, `wLineItemNullDiv` has `costDivision`
explicitly set to null. -/
theorem c2_omission_rule_witness :
    dlookup wLineItem.to_dict "paidInCents" = Option.none ∧
    dlookup wLineItemNullDiv.to_dict "costDivision" = some PyVal.none ∧
    dlookup wLineItem.to_dict "costDivision" = Option.none :=
  ⟨(c2_omission_rule wLineItem).1 rfl,
   (c2_omission_rule wLineItemNullDiv).2.1 rfl rfl,
   (c2_omission_rule wLineItem).2.2.1 rfl rfl⟩

/-- The re-encoding of the decode of the encoded fixture event (what a
round trip through the codec actually re-emits). -/
def c1Reencoded : PyVal :=
  match BillEvent.from_dict (PyVal.dict wEvent.to_dict) with
  | Except.ok (some e) => PyVal.dict e.to_dict
  | _ => PyVal.none

/-- Counterexample to C1: `wEvent`'s line item never had `cost_division`
set, so its encoding omits `costDivision`; but re-encoding the decoded
event emits `"costDivision": null` — the never-set vs explicitly-null
distinction does not survive the round trip. -/
theorem c1_distinction_lost_counterexample :
    dlookup (firstLineItemDict (PyVal.dict wEvent.to_dict)) "costDivision" = Option.none ∧
    dlookup (firstLineItemDict c1Reencoded) "costDivision" = some PyVal.none :=
  ⟨rfl, rfl⟩

/-- Claim C1 as amended: decoding the encoded form of any valid `BillEvent`
succeeds and yields an event structurally equal to the original in
pydantic's sense (field values; `model_fields_set` is not compared), but
the decoded event marks every line item's `cost_division` as set, so
re-encoding emits `"costDivision": null` for every null-valued
`cost_division` — also when the original encoding omitted the key. -/
theorem c1_round_trip_pyEq (e : BillEvent) (li : LineItem)
    (hcd : li.cost_division = Option.none) :
    BillEvent.from_dict (PyVal.dict e.to_dict) = Except.ok (some e.decodeNorm) ∧
    BillEvent.pyEq e.decodeNorm e ∧
    dlookup (LineItem.decodeNorm li).to_dict "costDivision" = some PyVal.none := by
  refine ⟨billEvent_from_to_dict e, billEvent_pyEq_decodeNorm e, ?_⟩
  rcases li with ⟨l, a, pic, ci, cn, cc, cd, cds, cv, si, de⟩
  cases hcd
  rcases pic with _ | pic <;> rcases cv with _ | cv <;> rcases si with _ | si <;>
    rcases de with _ | de <;>
    simp [LineItem.decodeNorm, LineItem.to_dict, dlookup, dictInsert]

/-- Witness for C1 (amended) at the fixture event and its line item. -/
theorem c1_round_trip_pyEq_witness :
    BillEvent.from_dict (PyVal.dict wEvent.to_dict) = Except.ok (some wEvent.decodeNorm) ∧
    BillEvent.pyEq wEvent.decodeNorm wEvent ∧
    dlookup (LineItem.decodeNorm wLineItem).to_dict "costDivision" = some PyVal.none :=
  c1_round_trip_pyEq wEvent wLineItem rfl

/-- Claim C8: adding one extra unrecognized key to a payload changes
neither `BillEvent.from_dict` nor `LineItem.from_dict` — the unknown key
is ignored, so a payload that decoded to a valid object still does, with
an equal result. -/
theorem c8_unknown_key_ignored (d : PyDict) (k : String) (v : PyVal)
    (hk : k ∉ (["bill", "project", "lineItems", "approval", "eventMetadata",
      "lineId", "amountInCents", "paidInCents", "costCodeId", "costCodeNumber",
      "costClassification", "costDivision", "costCodeVersion", "sourceId",
      "description"] : List String)) :
    BillEvent.from_dict (PyVal.dict (d ++ [(k, v)])) = BillEvent.from_dict (PyVal.dict d) ∧
    LineItem.from_dict (PyVal.dict (d ++ [(k, v)])) = LineItem.from_dict (PyVal.dict d) := by
  simp only [List.mem_cons, List.not_mem_nil, or_false, not_or] at hk
  obtain ⟨k1, k2, k3, k4, k5, k6, k7, k8, k9, k10, k11, k12, k13, k14, k15⟩ := hk
  constructor
  · simp only [BillEvent.from_dict, billField, projectField, lineItemsField,
      approvalField, metadataField,
      dget_append_ne d k _ v (Ne.symm k1), dget_append_ne d k _ v (Ne.symm k2),
      dget_append_ne d k _ v (Ne.symm k3), dget_append_ne d k _ v (Ne.symm k4),
      dget_append_ne d k _ v (Ne.symm k5)]
  · simp only [LineItem.from_dict, LineItem.modelValidate,
      dget_append_ne d k _ v (Ne.symm k6), dget_append_ne d k _ v (Ne.symm k7),
      dget_append_ne d k _ v (Ne.symm k8), dget_append_ne d k _ v (Ne.symm k9),
      dget_append_ne d k _ v (Ne.symm k10), dget_append_ne d k _ v (Ne.symm k11),
      dget_append_ne d k _ v (Ne.symm k12), dget_append_ne d k _ v (Ne.symm k13),
      dget_append_ne d k _ v (Ne.symm k14), dget_append_ne d k _ v (Ne.symm k15)]

/-- Witness for C8: an `extraKey` added to the fixture encodings is
ignored by both decoders. -/
theorem c8_unknown_key_ignored_witness :
    BillEvent.from_dict (PyVal.dict (wEvent.to_dict ++ [("extraKey", PyVal.int 7)]))
      = BillEvent.from_dict (PyVal.dict wEvent.to_dict) ∧
    LineItem.from_dict (PyVal.dict (wEvent.to_dict ++ [("extraKey", PyVal.int 7)]))
      = LineItem.from_dict (PyVal.dict wEvent.to_dict) :=
  c8_unknown_key_ignored wEvent.to_dict "extraKey" (PyVal.int 7) (by decide)

/-- Claim C4: decoding a `BillEvent` payload that lacks `approval` (or any
of the other four required top-level keys) — with the sub-objects that are
present being decodable — fails, the `ValidationError` names the missing
field, and no `BillEvent` is created. -/
theorem c4_missing_required_field (d : PyDict) (k : String)
    (hbuild : buildOk d = true) (hk : k ∈ requiredKeys)
    (hmiss : dget d k = PyVal.none) :
    (BillEvent.from_dict (PyVal.dict d)).isOk = false ∧
    k ∈ errorsOf (BillEvent.from_dict (PyVal.dict d)) := by
  simp only [buildOk, Bool.and_eq_true] at hbuild
  obtain ⟨⟨⟨⟨hb, hp⟩, hi⟩, ha⟩, hm⟩ := hbuild
  obtain ⟨bOpt, hbe⟩ := except_isOk_exists _ hb
  obtain ⟨pOpt, hpe⟩ := except_isOk_exists _ hp
  obtain ⟨iOpt, hie⟩ := except_isOk_exists _ hi
  obtain ⟨aOpt, hae⟩ := except_isOk_exists _ ha
  obtain ⟨mOpt, hme⟩ := except_isOk_exists _ hm
  simp only [requiredKeys, List.mem_cons, List.not_mem_nil, or_false] at hk
  rcases hk with rfl | rfl | rfl | rfl | rfl
  · have h0 : billField d = Except.ok Option.none := by simp [billField, hmiss]
    simp only [BillEvent.from_dict, h0, hpe, hie, hae, hme, BillEvent.modelValidate]
    rcases hio : iOpt.bind allSomeItems with _ | ls <;>
      rcases pOpt with _ | p <;> rcases aOpt with _ | a <;> rcases mOpt with _ | m <;>
      simp [hio, errorsOf, Except.map, Except.isOk, Except.toBool]
  · have h0 : projectField d = Except.ok Option.none := by simp [projectField, hmiss]
    simp only [BillEvent.from_dict, hbe, h0, hie, hae, hme, BillEvent.modelValidate]
    rcases hio : iOpt.bind allSomeItems with _ | ls <;>
      rcases bOpt with _ | b <;> rcases aOpt with _ | a <;> rcases mOpt with _ | m <;>
      simp [hio, errorsOf, Except.map, Except.isOk, Except.toBool]
  · have h0 : lineItemsField d = Except.ok Option.none := by simp [lineItemsField, hmiss]
    simp only [BillEvent.from_dict, hbe, hpe, h0, hae, hme, BillEvent.modelValidate]
    rcases bOpt with _ | b <;> rcases pOpt with _ | p <;>
      rcases aOpt with _ | a <;> rcases mOpt with _ | m <;>
      simp [errorsOf, Except.map, Except.isOk, Except.toBool]
  · have h0 : approvalField d = Except.ok Option.none := by simp [approvalField, hmiss]
    simp only [BillEvent.from_dict, hbe, hpe, hie, h0, hme, BillEvent.modelValidate]
    rcases hio : iOpt.bind allSomeItems with _ | ls <;>
      rcases bOpt with _ | b <;> rcases pOpt with _ | p <;> rcases mOpt with _ | m <;>
      simp [hio, errorsOf, Except.map, Except.isOk, Except.toBool]
  · have h0 : metadataField d = Except.ok Option.none := by simp [metadataField, hmiss]
    simp only [BillEvent.from_dict, hbe, hpe, hie, hae, h0, BillEvent.modelValidate]
    rcases hio : iOpt.bind allSomeItems with _ | ls <;>
      rcases bOpt with _ | b <;> rcases pOpt with _ | p <;> rcases aOpt with _ | a <;>
      simp [hio, errorsOf, Except.map, Except.isOk, Except.toBool]

/-- Witness for C4: a payload holding everything but `approval` is
rejected with an error naming `approval`. -/
theorem c4_missing_required_field_witness :
    (BillEvent.from_dict (PyVal.dict
      [("bill", PyVal.dict wBill.fields), ("project", PyVal.dict wProject.fields),
       ("lineItems", PyVal.list []), ("eventMetadata", PyVal.dict wMetadata.fields)])).isOk
        = false ∧
    "approval" ∈ errorsOf (BillEvent.from_dict (PyVal.dict
      [("bill", PyVal.dict wBill.fields), ("project", PyVal.dict wProject.fields),
       ("lineItems", PyVal.list []), ("eventMetadata", PyVal.dict wMetadata.fields)])) :=
  c4_missing_required_field _ "approval" rfl (by simp [requiredKeys]) rfl

/-- The `Detail` tree of the single entry `publish` builds for `wEvent`
under the test configuration (region `us-east-1`, bus `test-bus`, source
`com.test`). -/
def c3ActualDetail : PyVal :=
  match (BillEventPublisher.publish ⟨"us-east-1", "test-bus", "com.test"⟩
      (fun _ => (0 : Nat)) wEvent).calls with
  | [[entry]] => entry.detail
  | _ => PyVal.none

/-- Counterexample to C3: the published `Detail` is
`json.dumps(event.model_dump(by_alias=True))`, not the codec encoding
(`to_dict`): for `wEvent` (whose line item has `paidInCents` unset) the
`Detail` contains `"paidInCents": null`, while the codec's encoding omits
the key — the `Detail` violates the codec's omission rule. -/
theorem c3_detail_not_codec_encoding :
    dlookup (firstLineItemDict c3ActualDetail) "paidInCents" = some PyVal.none ∧
    dlookup (firstLineItemDict (PyVal.dict wEvent.to_dict)) "paidInCents" = Option.none :=
  ⟨rfl, rfl⟩

/-- Claim C3 as amended: `publish` makes exactly one bus-client call with
exactly one entry, whose `EventBusName`, `Source` and `DetailType` are the
configured bus name, source and `"BillEvent"`, and whose `Detail` is the
JSON text of `model_dump(by_alias=True)` (dates ISO-encoded) — not of the
codec's `to_dict`, so unset optionals appear as explicit nulls.  For a
date-free event the `Detail` still decodes, via `BillEvent.from_dict`, to
an event pydantic-equal to the one published, and the client's response is
returned unchanged. -/
theorem c3_publish_entry_shape {α : Type} (region busName src : String)
    (putEvents : List PutEventsEntry → α) (e : BillEvent)
    (hdf : dateFree (PyVal.dict e.model_dump) = true) :
    (BillEventPublisher.publish ⟨region, busName, src⟩ putEvents e).calls =
      [[⟨src, "BillEvent", PyVal.dict e.model_dump, busName⟩]] ∧
    BillEvent.from_dict (PyVal.dict e.model_dump) = Except.ok (some e.decodeNorm) ∧
    BillEvent.pyEq e.decodeNorm e ∧
    (BillEventPublisher.publish ⟨region, busName, src⟩ putEvents e).response =
      putEvents [⟨src, "BillEvent", PyVal.dict e.model_dump, busName⟩] := by
  have hid := jsonDumpsDateTime_id _ hdf
  exact ⟨by simp [BillEventPublisher.publish, hid],
    billEvent_from_model_dump e, billEvent_pyEq_decodeNorm e,
    by simp [BillEventPublisher.publish, hid]⟩

/-- Witness for C3 (amended) at the fixture event and test
configuration. -/
theorem c3_publish_entry_shape_witness :
    (BillEventPublisher.publish ⟨"us-east-1", "test-bus", "com.test"⟩
        (fun l => l.length) wEvent).calls =
      [[⟨"com.test", "BillEvent", PyVal.dict wEvent.model_dump, "test-bus"⟩]] ∧
    BillEvent.from_dict (PyVal.dict wEvent.model_dump) = Except.ok (some wEvent.decodeNorm) ∧
    BillEvent.pyEq wEvent.decodeNorm wEvent ∧
    (BillEventPublisher.publish ⟨"us-east-1", "test-bus", "com.test"⟩
        (fun l => l.length) wEvent).response =
      [(⟨"com.test", "BillEvent", PyVal.dict wEvent.model_dump, "test-bus"⟩ :
          PutEventsEntry)].length :=
  c3_publish_entry_shape "us-east-1" "test-bus" "com.test" (fun l => l.length) wEvent rfl

/-- Event metadata carrying a `datetime` leaf (`models/metadata.py` is a
collaborator-defined shape; spec §4.1 allows date/time fields there). -/
def c9Metadata : Metadata := ⟨[("approvedAt", PyVal.date "2024-01-15T10:30:00")]⟩

/-- A valid event containing one `datetime` leaf. -/
def c9Event : BillEvent := ⟨wBill, wProject, [wLineItem], wApproval, c9Metadata⟩

/-- Counterexample to C9: the codec's own JSON text production
(`BillEvent.to_json`, which is `json.dumps(self.to_dict())` with the
default encoder) does not convert date leaves: on an event containing a
`datetime` it raises `TypeError` instead of succeeding with the ISO-8601
form. -/
theorem c9_to_json_fails_on_date :
    BillEvent.to_json c9Event = Except.error dateErr := rfl

/-- Claim C9 as amended: only the publisher's JSON text production
(`json.dumps(..., cls=DateTimeEncoder)`) converts date/datetime leaves —
each such leaf becomes its ISO-8601 string, the converted tree is
date-free, and the default JSON encoder accepts it; the codec's
`to_json` path instead uses the default encoder directly and raises
`TypeError` on any event whose encoding contains a date leaf. -/
theorem c9_date_serialization (e : BillEvent) (s : String)
    (hdate : dateFree (PyVal.dict e.to_dict) = false) :
    jsonDumpsDateTime (PyVal.date s) = PyVal.str s ∧
    dateFree (jsonDumpsDateTime (PyVal.dict e.model_dump)) = true ∧
    jsonDumpsPlain (jsonDumpsDateTime (PyVal.dict e.model_dump)) =
      Except.ok (jsonDumpsDateTime (PyVal.dict e.model_dump)) ∧
    BillEvent.to_json e = Except.error dateErr :=
  ⟨rfl, jsonDumpsDateTime_dateFree _,
   jsonDumpsPlain_ok _ (jsonDumpsDateTime_dateFree _),
   by simp [BillEvent.to_json, jsonDumpsPlain_error _ hdate]⟩

/-- Witness for C9 (amended) at the event holding a `datetime` leaf. -/
theorem c9_date_serialization_witness :
    jsonDumpsDateTime (PyVal.date "2024-01-15T10:30:00") =
      PyVal.str "2024-01-15T10:30:00" ∧
    dateFree (jsonDumpsDateTime (PyVal.dict c9Event.model_dump)) = true ∧
    jsonDumpsPlain (jsonDumpsDateTime (PyVal.dict c9Event.model_dump)) =
      Except.ok (jsonDumpsDateTime (PyVal.dict c9Event.model_dump)) ∧
    BillEvent.to_json c9Event = Except.error dateErr :=
  c9_date_serialization c9Event "2024-01-15T10:30:00" rfl

/-- Claim C5: with handlers registered via `on` in order (no
de-duplication), an inbound payload whose `detail` decodes to a valid
`BillEvent` makes `handle_event` invoke every handler exactly once, in
registration order, each with the decoded event; nothing is raised and
the handler list is unchanged. -/
theorem c5_fanout_in_order (bn : String) (hs : List Handler) (p : PyDict)
    (v : PyVal) (e : BillEvent)
    (hd : dlookup p "detail" = some v)
    (hdec : BillEvent.from_dict v = Except.ok (some e))
    (hok : ∀ h ∈ hs, h.raises (some e) = Option.none) :
    BillEventConsumer.handle_event
        (hs.foldl BillEventConsumer.on ⟨bn, []⟩) (PyVal.dict p) =
      (hs.foldl BillEventConsumer.on ⟨bn, []⟩,
       ⟨hs.map (fun h => (h.id, some e)), Option.none, Option.none⟩) := by
  have hreg : (hs.foldl BillEventConsumer.on ⟨bn, []⟩).handlers = hs := by
    simpa using handlers_foldl_on ⟨bn, []⟩ hs
  simp [BillEventConsumer.handle_event, hd, hdec, hreg,
    runHandlers_no_raise hs (some e) hok]

/-- Non-raising fixture handlers. -/
def wHandlerOne : Handler := ⟨1, fun _ => Option.none⟩

def wHandlerTwo : Handler := ⟨2, fun _ => Option.none⟩

/-- Witness for C5: registering `wHandlerOne` then `wHandlerTwo` and
handling a payload carrying the encoded fixture event invokes handler 1
then handler 2, each once, with the decoded event. -/
theorem c5_fanout_in_order_witness :
    BillEventConsumer.handle_event
        ([wHandlerOne, wHandlerTwo].foldl BillEventConsumer.on ⟨"homebound-events", []⟩)
        (PyVal.dict [("detail", PyVal.dict wEvent.to_dict)]) =
      ([wHandlerOne, wHandlerTwo].foldl BillEventConsumer.on ⟨"homebound-events", []⟩,
       ⟨[(1, some wEvent.decodeNorm), (2, some wEvent.decodeNorm)],
        Option.none, Option.none⟩) := by
  have h := c5_fanout_in_order "homebound-events" [wHandlerOne, wHandlerTwo]
    [("detail", PyVal.dict wEvent.to_dict)] (PyVal.dict wEvent.to_dict)
    wEvent.decodeNorm rfl (billEvent_from_to_dict wEvent)
    (by
      intro h hm
      simp only [List.mem_cons, List.not_mem_nil, or_false] at hm
      rcases hm with rfl | rfl <;> rfl)
  simpa [wHandlerOne, wHandlerTwo] using h

/-- Claim C6: an inbound payload whose `detail` key is missing, or whose
`detail` fails to decode (the decoder raises), makes `handle_event`
invoke no handler, raise nothing to its caller, log the error, and leave
the consumer (its handler list included) unchanged. -/
theorem c6_decode_failure_swallowed (c : BillEventConsumer) (p : PyDict)
    (hbad : dlookup p "detail" = Option.none ∨
      ∃ v errs, dlookup p "detail" = some v ∧
        BillEvent.from_dict v = Except.error errs) :
    (c.handle_event (PyVal.dict p)).2.calls = [] ∧
    (c.handle_event (PyVal.dict p)).2.raised = Option.none ∧
    (c.handle_event (PyVal.dict p)).2.logged.isSome = true ∧
    (c.handle_event (PyVal.dict p)).1 = c := by
  rcases hbad with h | ⟨v, errs, hv, herr⟩ <;>
    simp [BillEventConsumer.handle_event, *]

/-- Witness for C6: a consumer with one registered handler drops a payload
whose `detail` is the string `"not-json-or-missing-fields"`. -/
theorem c6_decode_failure_swallowed_witness :
    ((BillEventConsumer.mk "homebound-events" [wHandlerOne]).handle_event
        (PyVal.dict [("detail", PyVal.str "not-json-or-missing-fields")])).2.calls = [] ∧
    ((BillEventConsumer.mk "homebound-events" [wHandlerOne]).handle_event
        (PyVal.dict [("detail", PyVal.str "not-json-or-missing-fields")])).2.raised
      = Option.none ∧
    ((BillEventConsumer.mk "homebound-events" [wHandlerOne]).handle_event
        (PyVal.dict [("detail", PyVal.str "not-json-or-missing-fields")])).2.logged.isSome
      = true ∧
    ((BillEventConsumer.mk "homebound-events" [wHandlerOne]).handle_event
        (PyVal.dict [("detail", PyVal.str "not-json-or-missing-fields")])).1
      = BillEventConsumer.mk "homebound-events" [wHandlerOne] :=
  c6_decode_failure_swallowed (BillEventConsumer.mk "homebound-events" [wHandlerOne])
    [("detail", PyVal.str "not-json-or-missing-fields")]
    (Or.inr ⟨PyVal.str "not-json-or-missing-fields", ["BillEvent"], rfl, rfl⟩)

/-- A handler that raises on every invocation. -/
def c7Raiser : Handler := ⟨7, fun _ => some "boom"⟩

/-- A consumer with the raising handler registered. -/
def c7Consumer : BillEventConsumer := ⟨"homebound-events", [c7Raiser]⟩

/-- A payload whose `detail` decodes to a valid `BillEvent`. -/
def c7Payload : PyVal := PyVal.dict [("detail", PyVal.dict wEvent.to_dict)]

/-- Counterexample to C7: the payload decodes successfully and the
registered handler raises, yet `handle_event` raises nothing to its
caller — the blanket `except Exception` catches the handler's exception
and merely logs it. -/
theorem c7_handler_exception_not_propagated :
    (c7Consumer.handle_event c7Payload).2.calls = [(7, some wEvent.decodeNorm)] ∧
    (c7Consumer.handle_event c7Payload).2.logged = some "boom" ∧
    (c7Consumer.handle_event c7Payload).2.raised = Option.none :=
  ⟨rfl, rfl, rfl⟩

/-- Claim C7 as amended: the decode-failure swallow is not the sole
non-propagation — when the payload decodes successfully and a handler
raises, the consumer's blanket `except` catches the exception too: the
handlers before it run, the raising handler is invoked, the handlers
after it are skipped, the message is logged, and nothing is raised to the
caller of `handle_event`. -/
theorem c7_handler_exception_swallowed (bn : String) (pre post : List Handler)
    (h : Handler) (msg : String) (p : PyDict) (v : PyVal) (e : BillEvent)
    (hd : dlookup p "detail" = some v)
    (hdec : BillEvent.from_dict v = Except.ok (some e))
    (hpre : ∀ h' ∈ pre, h'.raises (some e) = Option.none)
    (hraise : h.raises (some e) = some msg) :
    BillEventConsumer.handle_event ⟨bn, pre ++ h :: post⟩ (PyVal.dict p) =
      (⟨bn, pre ++ h :: post⟩,
       ⟨pre.map (fun h' => (h'.id, some e)) ++ [(h.id, some e)],
        some msg, Option.none⟩) := by
  simp [BillEventConsumer.handle_event, hd, hdec,
    runHandlers_first_raise pre h post (some e) msg hpre hraise]

/-- Witness for C7 (amended): handler 1 runs, the raising handler is
invoked and its exception is logged and swallowed, handler 2 never
runs. -/
theorem c7_handler_exception_swallowed_witness :
    BillEventConsumer.handle_event
        ⟨"homebound-events", [wHandlerOne] ++ c7Raiser :: [wHandlerTwo]⟩
        (PyVal.dict [("detail", PyVal.dict wEvent.to_dict)]) =
      (⟨"homebound-events", [wHandlerOne] ++ c7Raiser :: [wHandlerTwo]⟩,
       ⟨[(1, some wEvent.decodeNorm), (7, some wEvent.decodeNorm)],
        some "boom", Option.none⟩) := by
  have h := c7_handler_exception_swallowed "homebound-events" [wHandlerOne] [wHandlerTwo]
    c7Raiser "boom" [("detail", PyVal.dict wEvent.to_dict)] (PyVal.dict wEvent.to_dict)
    wEvent.decodeNorm rfl (billEvent_from_to_dict wEvent)
    (by
      intro h hm
      simp only [List.mem_cons, List.not_mem_nil, or_false] at hm
      rcases hm with rfl
      rfl)
    rfl
  simpa [wHandlerOne] using h
